import Mathlib

/-!
Verification of the natural-language specification of a pytorch source
excerpt consisting of two files:

* torch/csrc/monitor/events.cpp — a process-wide event-handler registry
  (observer pattern) guarded by a read-write lock;
* functorch/functorch/csrc/init.cpp — python bindings for the functorch
  transform system: dynamic-layer (interpreter level) nesting for
  grad/jvp/vmap/functionalize, and wrapper-tensor bookkeeping.

The C++ code is shallowly embedded: tensors become an inductive datatype
mirroring the wrapper-tensor hierarchy, the global dynamic-layer stack and
autograd TLS flags become an explicit state record that every operation
threads, storage contents become an explicit store, `TORCH_CHECK` /
`TORCH_INTERNAL_ASSERT` failures become `Except.error`, and C++ undefined
behaviour (erasing an end iterator) becomes `Option.none`.

Host-framework primitives that the excerpt calls but whose definitions are
not part of the excerpt (DynamicLayer.cpp, TensorWrapper.cpp,
BatchedTensorImpl, the ATen functionalization helpers, expand/permute
views) are modelled from the spec; every such definition carries a doc
comment starting with "Modelled from the spec:".
-/

namespace TorchMonitor

/-- Modelled from the spec: torch/csrc/monitor/events.h is not part of the
excerpt.  An event carries a name and a timestamp; the registry logic never
inspects these fields. -/
structure Event where
  name : String
  timestamp : Int
deriving DecidableEq, Repr

/-- A registered handler.  In the source a handler is a
std::shared_ptr of EventHandler and handler identity is shared_ptr
(pointer) equality; we model a handler by its pointer value. -/
abbrev Handler := Nat

/-- The state of the process-wide EventHandlers singleton
(events.cpp lines 13-45): a vector of registered handlers. -/
structure EventHandlers where
  handlers : List Handler
deriving DecidableEq, Repr

/-- EventHandlers::registerEventHandler (events.cpp lines 15-19):
appends the handler at the back of the vector. -/
def registerEventHandler (s : EventHandlers) (h : Handler) : EventHandlers :=
  { s with handlers := s.handlers ++ [h] }

/-- EventHandlers::unregisterEventHandler (events.cpp lines 21-27):
erases the iterator returned by std::find without checking it against
end().  When the handler is absent, std::find returns end() and erasing it
is undefined behaviour, modelled as none; otherwise the first occurrence
is erased. -/
def unregisterEventHandler (s : EventHandlers) (h : Handler) :
    Option EventHandlers :=
  if h ∈ s.handlers then some { s with handlers := s.handlers.erase h }
  else none

/-- EventHandlers::logEvent (events.cpp lines 29-35): iterates over the
handler vector in order and calls handle(e) on each element.  The result
is the trace of handle invocations, in execution order. -/
def logEvent (s : EventHandlers) (e : Event) : List (Handler × Event) :=
  s.handlers.map (fun h => (h, e))

end TorchMonitor

namespace Functorch

/-- Modelled from the spec: the host runtime owns the tensor object model.
A tensor is either a plain tensor (identified by its TensorImpl, holding a
storage reference, logical sizes and an element size), a view produced by
expand/permute (same storage, new logical sizes), a BatchedTensorImpl
(an inner value plus a physical batch dimension index and an interpreter
level), a grad-tracking TensorWrapper (an inner value, an optional level
and an aliveness flag), or a FunctionalTensorWrapper (an inner value and a
level).  Pointer equality of TensorImpls is modelled by structural
equality of this datatype. -/
inductive RTensor where
  | base (implId : Nat) (storageId : Nat) (baseSizes : List Nat) (elemSize : Nat)
  | view (of : RTensor) (viewSizes : List Nat)
  | batched (value : RTensor) (bdim : Nat) (blevel : Int)
  | gradWrapper (value : RTensor) (wlevel : Option Int) (alive : Bool)
  | functional (value : RTensor) (flevel : Int)
deriving DecidableEq, Repr

/-- Logical sizes of a tensor.  A batched tensor hides its batch dimension
from the logical view; the wrappers are transparent. -/
def RTensor.sizes : RTensor → List Nat
  | .base _ _ sz _ => sz
  | .view _ sz => sz
  | .batched v b _ => (RTensor.sizes v).eraseIdx b
  | .gradWrapper v _ _ => RTensor.sizes v
  | .functional v _ => RTensor.sizes v

/-- Logical dimensionality, Tensor::dim(). -/
def RTensor.dim (t : RTensor) : Nat := t.sizes.length

/-- Identity of the storage a tensor's data lives in; wrappers and views
forward to the tensor they wrap. -/
def RTensor.storageId : RTensor → Nat
  | .base _ sid _ _ => sid
  | .view t _ => RTensor.storageId t
  | .batched v _ _ => RTensor.storageId v
  | .gradWrapper v _ _ => RTensor.storageId v
  | .functional v _ => RTensor.storageId v

/-- Element size in bytes, recursing to the underlying plain tensor. -/
def RTensor.elemSize : RTensor → Nat
  | .base _ _ _ es => es
  | .view t _ => RTensor.elemSize t
  | .batched v _ _ => RTensor.elemSize v
  | .gradWrapper v _ _ => RTensor.elemSize v
  | .functional v _ => RTensor.elemSize v

/-- Tensor::nbytes(): number of logical elements times the element size. -/
def RTensor.nbytes (t : RTensor) : Nat := t.sizes.prod * t.elemSize

/-- Modelled from the spec: maybeGetBatchedImpl (BatchedTensorImpl.h, not
in the excerpt) returns the BatchedTensorImpl when the tensor's impl is
one, else nullptr.  Yields (value, bdim, level). -/
def maybeGetBatchedImpl : RTensor → Option (RTensor × Nat × Int)
  | .batched v b l => some (v, b, l)
  | _ => none

/-- Modelled from the spec: maybeGetTensorWrapper (TensorWrapper.h, not in
the excerpt) returns the grad-tracking TensorWrapper when the tensor's
impl is one, else nullptr.  Yields (value, level, alive). -/
def maybeGetTensorWrapper : RTensor → Option (RTensor × Option Int × Bool)
  | .gradWrapper v l a => some (v, l, a)
  | _ => none

/-- Modelled from the spec: isFunctionalTensor checks whether the impl
carries the Functionalize dispatch key, i.e. is a
FunctionalTensorWrapper. -/
def isFunctionalTensorImpl : RTensor → Bool
  | .functional _ _ => true
  | _ => false

/-- has_level (init.cpp lines 25-31): true iff the tensor is batched and
its batched level is at least the given level. -/
def has_level (self : RTensor) (level : Int) : Bool :=
  match maybeGetBatchedImpl self with
  | none => false
  | some (_, _, l) => decide (l ≥ level)

/-- Modelled from the spec: addBatchDim (BatchedTensorImpl, not in the
excerpt) wraps the tensor in a BatchedTensorImpl carrying the batch
dimension and level. -/
def addBatchDim (self : RTensor) (batch_dim : Nat) (level : Int) : RTensor :=
  .batched self batch_dim level

/-- _add_batch_dim (init.cpp lines 33-35). -/
def _add_batch_dim (self : RTensor) (batch_dim : Nat) (level : Int) : RTensor :=
  addBatchDim self batch_dim level

/-- Modelled from the spec: makeTensorWrapper (TensorWrapper.cpp, not in
the excerpt) wraps the tensor in a live grad-tracking TensorWrapper at the
given level. -/
def makeTensorWrapper (self : RTensor) (level : Int) : RTensor :=
  .gradWrapper self (some level) true

/-- _wrap_for_grad (init.cpp lines 155-161). -/
def _wrap_for_grad (self : RTensor) (level : Int) : RTensor :=
  makeTensorWrapper self level

/-- _unwrap_for_grad (init.cpp lines 163-173): a non-wrapper is returned
unchanged; a wrapper must have a level (TORCH_INTERNAL_ASSERT); if its
level equals the requested one the inner value is returned, otherwise the
tensor is returned unchanged. -/
def _unwrap_for_grad (self : RTensor) (level : Int) : Except String RTensor :=
  match maybeGetTensorWrapper self with
  | none => .ok self
  | some (value, wlevel, _) =>
    match wlevel with
    | none => .error "TORCH_INTERNAL_ASSERT failed: result level has_value"
    | some lv => if lv = level then .ok value else .ok self

/-- dlevel (init.cpp lines 175-184): 0 for a non-wrapper, -1 for a dead
wrapper, otherwise the wrapper's level (whose presence the source assumes
via optional::value). -/
def dlevel (tensor : RTensor) : Except String Int :=
  match maybeGetTensorWrapper tensor with
  | none => .ok 0
  | some (_, wlevel, alive) =>
    if ¬ alive then .ok (-1)
    else match wlevel with
      | some v => .ok v
      | none => .error "bad optional access: level has no value"

/-- Modelled from the spec: to_functional_tensor (ATen functionalization,
not in the excerpt) wraps a tensor in a FunctionalTensorWrapper whose
inner value is the tensor; the wrapper's level is later set explicitly,
we initialise it to -1. -/
def to_functional_tensor (self : RTensor) : RTensor :=
  .functional self (-1)

/-- Modelled from the spec: FunctionalTensorWrapper::set_level. -/
def setFunctionalLevel (t : RTensor) (level : Int) : RTensor :=
  match t with
  | .functional v _ => .functional v level
  | other => other

/-- _wrap_functional_tensor (init.cpp lines 37-41): wrap in a functional
tensor, then set its level. -/
def _wrap_functional_tensor (self : RTensor) (level : Int) : RTensor :=
  setFunctionalLevel (to_functional_tensor self) level

/-- _assert_wrapped_functional (init.cpp lines 43-49): asserts that
wrapped is a functional tensor, unwrapped is not, and wrapped's inner
value is the same TensorImpl as unwrapped. -/
def _assert_wrapped_functional (unwrapped wrapped : RTensor) :
    Except String Unit :=
  if ¬ isFunctionalTensorImpl wrapped then
    .error "TORCH_INTERNAL_ASSERT failed: isFunctionalTensor(wrapped)"
  else if isFunctionalTensorImpl unwrapped then
    .error "TORCH_INTERNAL_ASSERT failed: not isFunctionalTensor(unwrapped)"
  else
    match wrapped with
    | .functional inner _ =>
      if unwrapped = inner then .ok ()
      else .error "TORCH_INTERNAL_ASSERT failed: impl equality"
    | _ => .error "unreachable"

/-- The storage heap: contents of each storage, indexed by storage id.
Byte-level contents are abstracted to a list of integers. -/
def Store := Nat → List Int

/-- Pointwise store update, the effect of Tensor::copy_ from a
same-shaped source: the destination storage receives the source storage's
contents. -/
def Store.write (σ : Store) (sid : Nat) (data : List Int) : Store :=
  fun k => if k = sid then data else σ k

/-- _propagate_functional_input_mutation (init.cpp lines 51-68): asserts
wrapped is functional and unwrapped is not; syncs pending functional
updates (the excerpt's model has none pending, so sync_ is the identity);
if unwrapped and wrapped's inner value are the same TensorImpl nothing
happens, otherwise it asserts equal nbytes and equal sizes and copies the
inner value's data into unwrapped with copy_ — a write to unwrapped's
storage. -/
def _propagate_functional_input_mutation (unwrapped wrapped : RTensor)
    (σ : Store) : Except String Unit × Store :=
  if ¬ isFunctionalTensorImpl wrapped then
    (.error "TORCH_INTERNAL_ASSERT failed: isFunctionalTensor(wrapped)", σ)
  else if isFunctionalTensorImpl unwrapped then
    (.error "TORCH_INTERNAL_ASSERT failed: not isFunctionalTensor(unwrapped)", σ)
  else
    match wrapped with
    | .functional inner _ =>
      if unwrapped = inner then (.ok (), σ)
      else if unwrapped.nbytes ≠ inner.nbytes then
        (.error "TORCH_INTERNAL_ASSERT failed: nbytes equality", σ)
      else if unwrapped.sizes ≠ inner.sizes then
        (.error "TORCH_INTERNAL_ASSERT failed: sizes equality", σ)
      else
        (.ok (), σ.write unwrapped.storageId (σ inner.storageId))
    | _ => (.error "unreachable", σ)

/-- _unwrap_functional_tensor (init.cpp lines 137-153): asserts the input
is a functional tensor and returns its inner value.  The pending-update
replay (apply_updates / regenerate_from_base) belongs to ATen
functionalization, absent from the excerpt; the model carries no pending
updates, so apply_updates returns false and no regeneration happens. -/
def _unwrap_functional_tensor (self : RTensor) (_add_back_views : Bool) :
    Except String RTensor :=
  match self with
  | .functional v _ => .ok v
  | _ => .error "TORCH_INTERNAL_ASSERT failed: isFunctionalTensor(self)"

/-- is_batchedtensor (init.cpp lines 255-258). -/
def is_batchedtensor (tensor : RTensor) : Bool :=
  (maybeGetBatchedImpl tensor).isSome

/-- is_gradtrackingtensor (init.cpp lines 260-263). -/
def is_gradtrackingtensor (tensor : RTensor) : Bool :=
  (maybeGetTensorWrapper tensor).isSome

/-- is_functionaltensor (init.cpp lines 265-267). -/
def is_functionaltensor (tensor : RTensor) : Bool :=
  isFunctionalTensorImpl tensor

/-- get_unwrapped (init.cpp lines 269-283): peel one wrapper layer,
trying batched, then grad wrapper, then functional; TORCH_CHECK failure
when none is present. -/
def get_unwrapped (tensor : RTensor) : Except String RTensor :=
  match maybeGetBatchedImpl tensor with
  | some (v, _, _) => .ok v
  | none =>
    match maybeGetTensorWrapper tensor with
    | some (v, _, _) => .ok v
    | none =>
      match tensor with
      | .functional v _ => .ok v
      | _ => .error "No wrappers present!"

/-- maybe_get_level (init.cpp lines 285-303): the level of the outermost
wrapper; -2 for a grad wrapper without a level, -1 for a plain tensor. -/
def maybe_get_level (tensor : RTensor) : Int :=
  match maybeGetBatchedImpl tensor with
  | some (_, _, l) => l
  | none =>
    match maybeGetTensorWrapper tensor with
    | some (_, wlevel, _) =>
      match wlevel with
      | some l => l
      | none => -2
    | none =>
      match tensor with
      | .functional _ l => l
      | _ => -1

/-- maybe_get_bdim (init.cpp lines 305-311). -/
def maybe_get_bdim (tensor : RTensor) : Int :=
  match maybeGetBatchedImpl tensor with
  | some (_, b, _) => (b : Int)
  | none => -1

/-- Modelled from the spec: Tensor::expand (ATen, not in the excerpt)
produces a view of the tensor with the requested logical sizes and the
same storage. -/
def RTensor.expand (self : RTensor) (sz : List Nat) : RTensor :=
  .view self sz

/-- Modelled from the spec: Tensor::permute (ATen, not in the excerpt)
produces a view whose i-th logical size is the permutation's i-th entry
of the original sizes. -/
def RTensor.permute (self : RTensor) (perm : List Nat) : RTensor :=
  .view self (perm.map (fun i => self.sizes.getD i 0))

/-- Modelled from the spec: maybe_wrap_dim (ATen WrapDimUtils, not in the
excerpt): a dimension index in [-(d), d-1] is normalised into [0, d-1] by
adding d to negative values; for a 0-dimensional tensor the indices -1
and 0 are accepted and map to 0; anything else raises. -/
def maybe_wrap_dim (d : Int) (n : Nat) : Except String Nat :=
  if n = 0 then
    if d = 0 ∨ d = -1 then .ok 0
    else .error "Dimension out of range"
  else if 0 ≤ d ∧ d < (n : Int) then .ok d.toNat
  else if -(n : Int) ≤ d ∧ d < 0 then .ok (d + n).toNat
  else .error "Dimension out of range"

/-- _movedim (init.cpp lines 82-99): wrap src and dst; if equal return
self; otherwise build the permutation listing every dimension except src
in order and insert src at position dst, and permute. -/
def _movedim (self : RTensor) (src dst : Int) : Except String RTensor :=
  let logical_dim := self.dim
  match maybe_wrap_dim src logical_dim with
  | .error e => .error e
  | .ok s =>
    match maybe_wrap_dim dst logical_dim with
    | .error e => .error e
    | .ok d =>
      if s = d then .ok self
      else
        let permutation := (List.range logical_dim).filter (fun dim => dim ≠ s)
        .ok (self.permute (permutation.insertIdx d s))

/-- remove_existing_batch_dim (init.cpp lines 71-76): asserts the batched
tensor's level equals the requested one and returns (value, bdim). -/
def remove_existing_batch_dim (value : RTensor) (bdim : Nat) (blevel : Int)
    (level : Int) : Except String (RTensor × Nat) :=
  if blevel = level then .ok (value, bdim)
  else .error "TORCH_INTERNAL_ASSERT failed: batched level equals level"

/-- _remove_batch_dim (init.cpp lines 117-135): when self has no batch
dim at the level, insert a new dimension of size batch_size at out_dim by
expanding (an out-of-range insertion position is vector UB, modelled as
an error); otherwise remove the existing batch dim (asserting its level
matches exactly) and move the newly exposed dimension to out_dim. -/
def _remove_batch_dim (self : RTensor) (level : Int) (batch_size : Nat)
    (out_dim : Int) : Except String RTensor :=
  if ¬ has_level self level then
    let self_sizes := self.sizes
    if 0 ≤ out_dim ∧ out_dim ≤ (self_sizes.length : Int) then
      .ok (self.expand (self_sizes.insertIdx out_dim.toNat batch_size))
    else
      .error "undefined behaviour: vector insert position out of range"
  else
    match maybeGetBatchedImpl self with
    | none => .error "TORCH_INTERNAL_ASSERT failed: batched is not null"
    | some (value, bdim, blevel) =>
      match remove_existing_batch_dim value bdim blevel level with
      | .error e => .error e
      | .ok (self_without_bdim, newly_exposed_logical_dim) =>
        _movedim self_without_bdim (newly_exposed_logical_dim : Int) out_dim

/-- The four functorch transform kinds (DynamicLayer.h, named in
init.cpp's nesting bindings). -/
inductive TransformType where
  | Grad | Jvp | Vmap | Functionalize
deriving DecidableEq, Repr

/-- RandomnessType (init.cpp lines 191-201 and the vmap binding). -/
inductive RandomnessType where
  | Error | Same | Different
deriving DecidableEq, Repr

/-- Modelled from the spec: a DynamicLayer (DynamicLayer.h, not in the
excerpt) is one interpreter level: its transform kind, its numeric layer
id, and the per-transform payload passed by initAndPushDynamicLayer. -/
structure DynamicLayer where
  key : TransformType
  layerId : Nat
  batchSize : Option Nat
  randomness : Option RandomnessType
  prevGradMode : Option Bool
  prevFwdGradMode : Option Bool
  functionalizeAddBackViews : Option Bool
deriving DecidableEq, Repr

/-- The global mutable state the nesting bindings touch: the dynamic
layer stack (head is the most recently pushed layer) and the
thread-local autograd mode flags. -/
structure FuncTorchState where
  dynamicLayerStack : List DynamicLayer
  gradMode : Bool
  fwdGradMode : Bool
deriving DecidableEq, Repr

/-- Modelled from the spec: initAndPushDynamicLayer (DynamicLayer.cpp,
not in the excerpt) pushes a fresh layer whose id is the stack depth
after the push, and returns that id. -/
def initAndPushDynamicLayer (key : TransformType) (batchSize : Option Nat)
    (randomness : Option RandomnessType) (prevGradMode : Option Bool)
    (prevFwdGradMode : Option Bool) (functionalizeAddBackViews : Option Bool)
    (s : FuncTorchState) : Nat × FuncTorchState :=
  let layerId := s.dynamicLayerStack.length + 1
  let layer : DynamicLayer :=
    ⟨key, layerId, batchSize, randomness, prevGradMode, prevFwdGradMode,
      functionalizeAddBackViews⟩
  (layerId, { s with dynamicLayerStack := layer :: s.dynamicLayerStack })

/-- Modelled from the spec: popDynamicLayerAndDeleteMetadata
(DynamicLayer.cpp, not in the excerpt) pops and returns the most recently
pushed dynamic layer. -/
def popDynamicLayerAndDeleteMetadata (s : FuncTorchState) :
    Except String (DynamicLayer × FuncTorchState) :=
  match s.dynamicLayerStack with
  | [] => .error "popping from an empty dynamic layer stack"
  | layer :: rest =>
    .ok (layer, { s with dynamicLayerStack := rest })

/-- set_fwd_grad_enabled (init.cpp lines 203-205). -/
def set_fwd_grad_enabled (enabled : Bool) (s : FuncTorchState) :
    FuncTorchState :=
  { s with fwdGradMode := enabled }

/-- get_fwd_grad_enabled (init.cpp lines 207-209). -/
def get_fwd_grad_enabled (s : FuncTorchState) : Bool :=
  s.fwdGradMode

/-- _grad_increment_nesting (init.cpp lines 211-215): reads GradMode and
pushes a Grad layer recording it. -/
def _grad_increment_nesting (s : FuncTorchState) : Nat × FuncTorchState :=
  let prev_grad_mode := s.gradMode
  initAndPushDynamicLayer .Grad none none (some prev_grad_mode) none none s

/-- _grad_decrement_nesting (init.cpp lines 217-221): pops the top layer,
asserts it is a Grad layer, and returns its id. -/
def _grad_decrement_nesting (s : FuncTorchState) :
    Except String (Nat × FuncTorchState) :=
  match popDynamicLayerAndDeleteMetadata s with
  | .error e => .error e
  | .ok (layer, s') =>
    if layer.key = TransformType.Grad then .ok (layer.layerId, s')
    else .error "TORCH_INTERNAL_ASSERT failed: layer key is Grad"

/-- _jvp_increment_nesting (init.cpp lines 223-227). -/
def _jvp_increment_nesting (s : FuncTorchState) : Nat × FuncTorchState :=
  let prev_fwd_grad_mode := get_fwd_grad_enabled s
  initAndPushDynamicLayer .Jvp none none none (some prev_fwd_grad_mode) none s

/-- _jvp_decrement_nesting (init.cpp lines 229-233). -/
def _jvp_decrement_nesting (s : FuncTorchState) :
    Except String (Nat × FuncTorchState) :=
  match popDynamicLayerAndDeleteMetadata s with
  | .error e => .error e
  | .ok (layer, s') =>
    if layer.key = TransformType.Jvp then .ok (layer.layerId, s')
    else .error "TORCH_INTERNAL_ASSERT failed: layer key is Jvp"

/-- get_randomness_enum (init.cpp lines 191-201). -/
def get_randomness_enum (randomness : String) :
    Except String RandomnessType :=
  if randomness = "error" then .ok .Error
  else if randomness = "same" then .ok .Same
  else if randomness = "different" then .ok .Different
  else .error "randomness argument must be error, same, or different."

/-- _vmap_increment_nesting (init.cpp lines 235-237). -/
def _vmap_increment_nesting (batch_size : Nat) (randomness : String)
    (s : FuncTorchState) : Except String (Nat × FuncTorchState) :=
  match get_randomness_enum randomness with
  | .error e => .error e
  | .ok r =>
    .ok (initAndPushDynamicLayer .Vmap (some batch_size) (some r)
      none none none s)

/-- _vmap_decrement_nesting (init.cpp lines 239-243). -/
def _vmap_decrement_nesting (s : FuncTorchState) :
    Except String (Nat × FuncTorchState) :=
  match popDynamicLayerAndDeleteMetadata s with
  | .error e => .error e
  | .ok (layer, s') =>
    if layer.key = TransformType.Vmap then .ok (layer.layerId, s')
    else .error "TORCH_INTERNAL_ASSERT failed: layer key is Vmap"

/-- _func_increment_nesting (init.cpp lines 245-247). -/
def _func_increment_nesting (reapply_views : Bool) (s : FuncTorchState) :
    Nat × FuncTorchState :=
  initAndPushDynamicLayer .Functionalize none none none none
    (some reapply_views) s

/-- _func_decrement_nesting (init.cpp lines 249-253). -/
def _func_decrement_nesting (s : FuncTorchState) :
    Except String (Nat × FuncTorchState) :=
  match popDynamicLayerAndDeleteMetadata s with
  | .error e => .error e
  | .ok (layer, s') =>
    if layer.key = TransformType.Functionalize then .ok (layer.layerId, s')
    else .error "TORCH_INTERNAL_ASSERT failed: layer key is Functionalize"

/-- Result of one exported tensor operation. -/
inductive OpResult where
  | tensor (t : RTensor)
  | int (i : Int)
  | boolean (b : Bool)
  | unit
deriving DecidableEq, Repr

/-- The exported operations of init.cpp that take tensor arguments, as
one syntactic family, so that storage (non-)interference can be stated
uniformly over all of them. -/
inductive TensorOp where
  | addBatchDimOp (self : RTensor) (batch_dim : Nat) (level : Int)
  | removeBatchDimOp (self : RTensor) (level : Int) (batch_size : Nat) (out_dim : Int)
  | wrapFunctionalOp (self : RTensor) (level : Int)
  | assertWrappedFunctionalOp (unwrapped wrapped : RTensor)
  | propagateFunctionalInputMutationOp (unwrapped wrapped : RTensor)
  | unwrapFunctionalOp (self : RTensor) (add_back_views : Bool)
  | wrapForGradOp (self : RTensor) (level : Int)
  | unwrapForGradOp (self : RTensor) (level : Int)
  | dlevelOp (tensor : RTensor)
  | isBatchedOp (tensor : RTensor)
  | isGradTrackingOp (tensor : RTensor)
  | isFunctionalOp (tensor : RTensor)
  | getUnwrappedOp (tensor : RTensor)
  | maybeGetLevelOp (tensor : RTensor)
  | maybeGetBdimOp (tensor : RTensor)
deriving DecidableEq, Repr

/-- Run one exported operation against the storage heap.  Every
operation except _propagate_functional_input_mutation computes purely on
tensor metadata and threads the store untouched, exactly as the source
functions contain no storage write; the propagation op is the one
forwarding to the store-writing copy_. -/
def TensorOp.run (op : TensorOp) (σ : Store) :
    Except String OpResult × Store :=
  match op with
  | .addBatchDimOp self bd lvl => (.ok (.tensor (_add_batch_dim self bd lvl)), σ)
  | .removeBatchDimOp self lvl bs od =>
    ((_remove_batch_dim self lvl bs od).map .tensor, σ)
  | .wrapFunctionalOp self lvl => (.ok (.tensor (_wrap_functional_tensor self lvl)), σ)
  | .assertWrappedFunctionalOp u w =>
    ((_assert_wrapped_functional u w).map (fun _ => .unit), σ)
  | .propagateFunctionalInputMutationOp u w =>
    let (r, σ') := _propagate_functional_input_mutation u w σ
    (r.map (fun _ => .unit), σ')
  | .unwrapFunctionalOp self abv =>
    ((_unwrap_functional_tensor self abv).map .tensor, σ)
  | .wrapForGradOp self lvl => (.ok (.tensor (_wrap_for_grad self lvl)), σ)
  | .unwrapForGradOp self lvl => ((_unwrap_for_grad self lvl).map .tensor, σ)
  | .dlevelOp t => ((dlevel t).map .int, σ)
  | .isBatchedOp t => (.ok (.boolean (is_batchedtensor t)), σ)
  | .isGradTrackingOp t => (.ok (.boolean (is_gradtrackingtensor t)), σ)
  | .isFunctionalOp t => (.ok (.boolean (is_functionaltensor t)), σ)
  | .getUnwrappedOp t => ((get_unwrapped t).map .tensor, σ)
  | .maybeGetLevelOp t => (.ok (.int (maybe_get_level t)), σ)
  | .maybeGetBdimOp t => (.ok (.int (maybe_get_bdim t)), σ)

/-- Whether the operation is the input-mutation propagation binding. -/
def TensorOp.isPropagate : TensorOp → Bool
  | .propagateFunctionalInputMutationOp _ _ => true
  | _ => false

end Functorch


/-! ## Theorems -/

namespace TorchMonitor

/-- C4: event broadcast is total and ordered — logEvent's invocation
trace is exactly the registered handler list paired with the event, in
registration order; each handler receives the event as many times as it
occurs in the registry, hence exactly once when each handler is
registered once. -/
theorem logEvent_total_ordered (s : EventHandlers) (e : Event) :
    logEvent s e = s.handlers.map (fun h => (h, e)) ∧
    (logEvent s e).map Prod.fst = s.handlers ∧
    (∀ h : Handler,
      ((logEvent s e).map Prod.fst).count h = s.handlers.count h) ∧
    (s.handlers.Nodup → ∀ h ∈ s.handlers,
      ((logEvent s e).map Prod.fst).count h = 1) := by
  have hfst : (logEvent s e).map Prod.fst = s.handlers := by
    simp only [logEvent, List.map_map]
    exact List.map_id s.handlers
  refine ⟨rfl, hfst, ?_, ?_⟩
  · intro h
    rw [hfst]
  · intro hnd h hmem
    rw [hfst]
    exact List.count_eq_one_of_mem hnd hmem

/-- Witness for C4 at a concrete registry. -/
theorem logEvent_total_ordered_witness :
    ((logEvent ⟨[3, 5]⟩ ⟨"ev", 7⟩).map Prod.fst).count 3 = 1 :=
  (logEvent_total_ordered ⟨[3, 5]⟩ ⟨"ev", 7⟩).2.2.2 (by decide) 3 (by decide)

/-- C5: registering a handler makes every subsequent broadcast reach it;
when a handler occurs exactly once, unregistering it stops its delivery
while every other handler keeps its registration count and keeps
receiving events. -/
theorem register_unregister_round_trip (s : EventHandlers) (h : Handler)
    (e : Event) :
    ((h, e) ∈ logEvent (registerEventHandler s h) e) ∧
    (s.handlers.count h = 1 →
      ∃ s', unregisterEventHandler s h = some s' ∧
        (∀ e' : Event, (h, e') ∉ logEvent s' e') ∧
        (∀ g : Handler, g ≠ h → s'.handlers.count g = s.handlers.count g) ∧
        (∀ g ∈ s.handlers, g ≠ h →
          g ∈ s'.handlers ∧ ∀ e' : Event, (g, e') ∈ logEvent s' e')) := by
  constructor
  · simp [logEvent, registerEventHandler]
  · intro hcount
    have hmem : h ∈ s.handlers := by
      have : 0 < s.handlers.count h := by omega
      exact List.count_pos_iff.mp this
    refine ⟨⟨s.handlers.erase h⟩, ?_, ?_, ?_, ?_⟩
    · simp [unregisterEventHandler, hmem]
    · intro e' hin
      simp only [logEvent, List.mem_map] at hin
      obtain ⟨g, hg, hge⟩ := hin
      have hgh : g = h := congrArg Prod.fst hge
      subst hgh
      have hc : (s.handlers.erase g).count g = 0 := by
        rw [List.count_erase_self, hcount]
      exact absurd (List.count_pos_iff.mpr hg) (by omega)
    · intro g hg
      exact List.count_erase_of_ne hg s.handlers
    · intro g hgmem hgh
      have hg' : g ∈ s.handlers.erase h := (List.mem_erase_of_ne hgh).mpr hgmem
      refine ⟨hg', fun e' => ?_⟩
      simp only [logEvent, List.mem_map]
      exact ⟨g, hg', rfl⟩

/-- Witness for C5 at a concrete registry. -/
theorem register_unregister_round_trip_witness :
    (3, (⟨"ev", 7⟩ : Event)) ∈ logEvent (registerEventHandler ⟨[5]⟩ 3) ⟨"ev", 7⟩ ∧
    ∃ s', unregisterEventHandler ⟨[5, 3]⟩ 3 = some s' ∧
      (∀ e' : Event, (3, e') ∉ logEvent s' e') ∧
      (∀ g : Handler, g ≠ 3 →
        s'.handlers.count g = (⟨[5, 3]⟩ : EventHandlers).handlers.count g) ∧
      (∀ g ∈ (⟨[5, 3]⟩ : EventHandlers).handlers, g ≠ 3 →
        g ∈ s'.handlers ∧ ∀ e' : Event, (g, e') ∈ logEvent s' e') :=
  ⟨(register_unregister_round_trip ⟨[5]⟩ 3 ⟨"ev", 7⟩).1,
   (register_unregister_round_trip ⟨[5, 3]⟩ 3 ⟨"ev", 7⟩).2 (by decide)⟩

/-- C8: unregistering a handler that is absent reaches the erase of the
end iterator (undefined behaviour); under the presence precondition
exactly the first occurrence is removed and the registry shrinks by
one. -/
theorem unregister_erases_first_occurrence (s : EventHandlers) (h : Handler) :
    (h ∉ s.handlers → unregisterEventHandler s h = none) ∧
    (h ∈ s.handlers →
      ∃ l₁ l₂, h ∉ l₁ ∧ s.handlers = l₁ ++ h :: l₂ ∧
        unregisterEventHandler s h = some ⟨l₁ ++ l₂⟩ ∧
        (l₁ ++ l₂).length + 1 = s.handlers.length) := by
  constructor
  · intro habs
    simp [unregisterEventHandler, habs]
  · intro hmem
    obtain ⟨l₁, l₂, hnot, heq, herase⟩ := List.exists_erase_eq hmem
    refine ⟨l₁, l₂, hnot, heq, ?_, ?_⟩
    · simp [unregisterEventHandler, hmem, herase]
    · rw [← herase, List.length_erase_of_mem hmem]
      have : 0 < s.handlers.length := List.length_pos.mpr (by
        intro hnil
        rw [hnil] at hmem
        exact absurd hmem (List.not_mem_nil h))
      omega

/-- Witness for C8 at a concrete registry. -/
theorem unregister_erases_first_occurrence_witness :
    unregisterEventHandler ⟨[5]⟩ 3 = none ∧
    ∃ l₁ l₂, 3 ∉ l₁ ∧ (⟨[5, 3, 3]⟩ : EventHandlers).handlers = l₁ ++ 3 :: l₂ ∧
      unregisterEventHandler ⟨[5, 3, 3]⟩ 3 = some ⟨l₁ ++ l₂⟩ ∧
      (l₁ ++ l₂).length + 1 = (⟨[5, 3, 3]⟩ : EventHandlers).handlers.length :=
  ⟨(unregister_erases_first_occurrence ⟨[5]⟩ 3).1 (by decide),
   (unregister_erases_first_occurrence ⟨[5, 3, 3]⟩ 3).2 (by decide)⟩

end TorchMonitor

namespace Functorch

/-- C1: for each transform kind the nesting operations maintain a LIFO
stack of interpreter levels — each decrement pops the most recently
pushed dynamic layer, fails by internal assertion unless the popped
layer's transform type matches, and returns the popped layer's id; in
particular each increment/decrement pair restores the previous state and
the decrement returns the id the increment produced. -/
theorem nesting_lifo (s : FuncTorchState) (reapply_views : Bool)
    (batch_size : Nat) (randomness : String) :
    (_grad_decrement_nesting (_grad_increment_nesting s).2 =
      .ok ((_grad_increment_nesting s).1, s)) ∧
    (_jvp_decrement_nesting (_jvp_increment_nesting s).2 =
      .ok ((_jvp_increment_nesting s).1, s)) ∧
    (_func_decrement_nesting (_func_increment_nesting reapply_views s).2 =
      .ok ((_func_increment_nesting reapply_views s).1, s)) ∧
    (∀ n s', _vmap_increment_nesting batch_size randomness s = .ok (n, s') →
      _vmap_decrement_nesting s' = .ok (n, s)) ∧
    (∀ layer rest, s.dynamicLayerStack = layer :: rest →
      ((layer.key = .Grad →
          _grad_decrement_nesting s =
            .ok (layer.layerId, { s with dynamicLayerStack := rest })) ∧
       (layer.key ≠ .Grad → ∃ msg, _grad_decrement_nesting s = .error msg) ∧
       (layer.key = .Jvp →
          _jvp_decrement_nesting s =
            .ok (layer.layerId, { s with dynamicLayerStack := rest })) ∧
       (layer.key ≠ .Jvp → ∃ msg, _jvp_decrement_nesting s = .error msg) ∧
       (layer.key = .Vmap →
          _vmap_decrement_nesting s =
            .ok (layer.layerId, { s with dynamicLayerStack := rest })) ∧
       (layer.key ≠ .Vmap → ∃ msg, _vmap_decrement_nesting s = .error msg) ∧
       (layer.key = .Functionalize →
          _func_decrement_nesting s =
            .ok (layer.layerId, { s with dynamicLayerStack := rest })) ∧
       (layer.key ≠ .Functionalize →
          ∃ msg, _func_decrement_nesting s = .error msg))) := by
  obtain ⟨stack, gm, fgm⟩ := s
  refine ⟨?_, ?_, ?_, ?_, ?_⟩
  · simp [_grad_increment_nesting, _grad_decrement_nesting,
      initAndPushDynamicLayer, popDynamicLayerAndDeleteMetadata]
  · simp [_jvp_increment_nesting, _jvp_decrement_nesting, get_fwd_grad_enabled,
      initAndPushDynamicLayer, popDynamicLayerAndDeleteMetadata]
  · simp [_func_increment_nesting, _func_decrement_nesting,
      initAndPushDynamicLayer, popDynamicLayerAndDeleteMetadata]
  · intro n s' hinc
    cases hr : get_randomness_enum randomness with
    | error msg => simp [_vmap_increment_nesting, hr] at hinc
    | ok rt =>
      simp only [_vmap_increment_nesting, hr, initAndPushDynamicLayer,
        Except.ok.injEq, Prod.mk.injEq] at hinc
      obtain ⟨hn, hs⟩ := hinc
      subst hn
      rw [← hs]
      simp [_vmap_decrement_nesting, popDynamicLayerAndDeleteMetadata]
  · intro layer rest hstack
    have hs : stack = layer :: rest := hstack
    subst hs
    refine ⟨?_, ?_, ?_, ?_, ?_, ?_, ?_, ?_⟩ <;>
      intro hkey <;>
      simp [_grad_decrement_nesting, _jvp_decrement_nesting,
        _vmap_decrement_nesting, _func_decrement_nesting,
        popDynamicLayerAndDeleteMetadata, hkey]

/-- Witness for C1 on a concrete state with a non-matching top layer. -/
theorem nesting_lifo_witness :
    _grad_decrement_nesting (_grad_increment_nesting ⟨[], true, false⟩).2 =
      .ok ((_grad_increment_nesting ⟨[], true, false⟩).1,
        ⟨[], true, false⟩) ∧
    _vmap_decrement_nesting
        ⟨[⟨.Vmap, 1, some 3, some .Error, none, none, none⟩], true, false⟩ =
      .ok (1, ⟨[], true, false⟩) ∧
    (∃ msg, _grad_decrement_nesting
        ⟨[⟨.Vmap, 1, some 3, some .Error, none, none, none⟩], true, false⟩ =
      .error msg) := by
  refine ⟨(nesting_lifo ⟨[], true, false⟩ true 3 "same").1, ?_, ?_⟩
  · exact (((nesting_lifo
      ⟨[⟨.Vmap, 1, some 3, some .Error, none, none, none⟩], true, false⟩
      true 3 "same").2.2.2.2 _ [] rfl).2.2.2.2.1 rfl)
  · exact (((nesting_lifo
      ⟨[⟨.Vmap, 1, some 3, some .Error, none, none, none⟩], true, false⟩
      true 3 "same").2.2.2.2 _ [] rfl).2.1 (by decide))

/-- C10: _vmap_increment_nesting raises, with the exact message of
get_randomness_enum, precisely when the randomness string is none of
error, same, different; the accepted strings map to the corresponding
RandomnessType values and the layer is pushed. -/
theorem vmap_randomness_validation (batch_size : Nat) (randomness : String)
    (s : FuncTorchState) :
    (get_randomness_enum "error" = .ok .Error ∧
     get_randomness_enum "same" = .ok .Same ∧
     get_randomness_enum "different" = .ok .Different) ∧
    ((∃ msg, _vmap_increment_nesting batch_size randomness s = .error msg) ↔
      (randomness ≠ "error" ∧ randomness ≠ "same" ∧ randomness ≠ "different")) ∧
    (randomness ≠ "error" → randomness ≠ "same" → randomness ≠ "different" →
      _vmap_increment_nesting batch_size randomness s =
        .error "randomness argument must be error, same, or different.") := by
  refine ⟨⟨rfl, rfl, rfl⟩, ?_, ?_⟩
  · by_cases h1 : randomness = "error"
    · subst h1
      simp [_vmap_increment_nesting, get_randomness_enum, bind, Except.bind]
    · by_cases h2 : randomness = "same"
      · subst h2
        simp [_vmap_increment_nesting, get_randomness_enum, bind, Except.bind]
      · by_cases h3 : randomness = "different"
        · subst h3
          simp [_vmap_increment_nesting, get_randomness_enum, bind, Except.bind]
        · simp [_vmap_increment_nesting, get_randomness_enum, h1, h2, h3,
            bind, Except.bind]
  · intro h1 h2 h3
    simp [_vmap_increment_nesting, get_randomness_enum, h1, h2, h3,
      bind, Except.bind]

/-- Witness for C10 at concrete randomness strings. -/
theorem vmap_randomness_validation_witness :
    _vmap_increment_nesting 3 "banana" ⟨[], true, false⟩ =
      .error "randomness argument must be error, same, or different." :=
  (vmap_randomness_validation 3 "banana" ⟨[], true, false⟩).2.2
    (by decide) (by decide) (by decide)

/-- C2: unwrapping a freshly wrapped grad-tracking tensor at the same
level returns the underlying tensor; a tensor that is not a grad-tracking
wrapper, or whose wrapper level is a different level, is returned
unchanged. -/
theorem wrap_unwrap_for_grad (t u v : RTensor) (l lv : Int) (a : Bool) :
    _unwrap_for_grad (_wrap_for_grad t l) l = .ok t ∧
    (maybeGetTensorWrapper u = none → _unwrap_for_grad u l = .ok u) ∧
    (lv ≠ l → _unwrap_for_grad (.gradWrapper v (some lv) a) l =
      .ok (.gradWrapper v (some lv) a)) := by
  refine ⟨?_, ?_, ?_⟩
  · simp [_wrap_for_grad, makeTensorWrapper, _unwrap_for_grad,
      maybeGetTensorWrapper]
  · intro hu
    simp [_unwrap_for_grad, hu]
  · intro hne
    simp [_unwrap_for_grad, maybeGetTensorWrapper, hne]

/-- Witness for C2 at concrete tensors. -/
theorem wrap_unwrap_for_grad_witness :
    _unwrap_for_grad (_wrap_for_grad (.base 0 0 [2] 4) 3) 3 =
      .ok (.base 0 0 [2] 4) ∧
    _unwrap_for_grad (.base 1 1 [2] 4) 3 = .ok (.base 1 1 [2] 4) ∧
    _unwrap_for_grad (.gradWrapper (.base 0 0 [2] 4) (some 2) true) 3 =
      .ok (.gradWrapper (.base 0 0 [2] 4) (some 2) true) :=
  ⟨(wrap_unwrap_for_grad (.base 0 0 [2] 4) (.base 1 1 [2] 4)
      (.base 0 0 [2] 4) 3 2 true).1,
   (wrap_unwrap_for_grad (.base 0 0 [2] 4) (.base 1 1 [2] 4)
      (.base 0 0 [2] 4) 3 2 true).2.1 (by decide),
   (wrap_unwrap_for_grad (.base 0 0 [2] 4) (.base 1 1 [2] 4)
      (.base 0 0 [2] 4) 3 2 true).2.2 (by decide)⟩

/-- C7: _wrap_functional_tensor produces a functional tensor whose
recorded level is the given level and whose inner value is the input;
_assert_wrapped_functional succeeds exactly when wrapped is a functional
tensor, unwrapped is not, and wrapped's inner value is the same tensor as
unwrapped. -/
theorem wrap_functional_assert (self u w : RTensor) (l : Int) :
    _wrap_functional_tensor self l = .functional self l ∧
    is_functionaltensor (_wrap_functional_tensor self l) = true ∧
    maybe_get_level (_wrap_functional_tensor self l) = l ∧
    get_unwrapped (_wrap_functional_tensor self l) = .ok self ∧
    (_assert_wrapped_functional u w = .ok () ↔
      (isFunctionalTensorImpl w = true ∧ isFunctionalTensorImpl u = false ∧
        ∃ fl, w = .functional u fl)) := by
  refine ⟨rfl, rfl, rfl, rfl, ?_⟩
  constructor
  · intro hok
    cases w with
    | functional inner fl =>
      cases u <;>
        simp_all [_assert_wrapped_functional, isFunctionalTensorImpl]
    | base i sid sz es => simp [_assert_wrapped_functional,
        isFunctionalTensorImpl] at hok
    | view t sz => simp [_assert_wrapped_functional,
        isFunctionalTensorImpl] at hok
    | batched tv b bl => simp [_assert_wrapped_functional,
        isFunctionalTensorImpl] at hok
    | gradWrapper gv gl ga => simp [_assert_wrapped_functional,
        isFunctionalTensorImpl] at hok
  · rintro ⟨hw, hu, fl, rfl⟩
    simp [_assert_wrapped_functional, isFunctionalTensorImpl, hu]
    exact hu

/-- Witness for C7 at concrete tensors. -/
theorem wrap_functional_assert_witness :
    _assert_wrapped_functional (.base 0 0 [2] 4)
      (.functional (.base 0 0 [2] 4) 5) = .ok () :=
  (wrap_functional_assert (.base 1 1 [] 1) (.base 0 0 [2] 4)
    (.functional (.base 0 0 [2] 4) 5) 0).2.2.2.2.mpr
    ⟨rfl, rfl, 5, rfl⟩

end Functorch

/-- Mapping an index lookup over the full index range reproduces the
list. -/
theorem map_getD_range {α : Type} (l : List α) (d : α) :
    (List.range l.length).map (fun i => l.getD i d) = l := by
  induction l with
  | nil => rfl
  | cons a tl ih =>
    rw [List.length_cons, List.range_succ_eq_map, List.map_cons, List.map_map]
    have hcomp : ((fun i => (a :: tl).getD i d) ∘ Nat.succ) =
        fun i => tl.getD i d := by
      funext i
      simp [Function.comp]
    rw [List.getD_cons_zero, hcomp, ih]

/-- Filtering out one index from a range erases that position. -/
theorem filter_ne_range_eq_eraseIdx :
    ∀ n s : Nat, s < n →
      (List.range n).filter (fun i => decide (i ≠ s)) =
        (List.range n).eraseIdx s := by
  intro n
  induction n with
  | zero => intro s hs; omega
  | succ n ih =>
    intro s hs
    rw [List.range_succ, List.filter_append]
    by_cases hsn : s < n
    · rw [ih s hsn,
        List.eraseIdx_append_of_lt_length (by simpa using hsn),
        List.filter_cons_of_pos (by simp; omega), List.filter_nil]
    · have hs' : s = n := by omega
      rw [hs']
      rw [List.filter_cons_of_neg (by simp), List.filter_nil,
        List.eraseIdx_append_of_length_le (by simp), List.append_nil]
      have hall : (List.range n).filter (fun i => decide (i ≠ n)) =
          List.range n := by
        rw [List.filter_eq_self]
        intro a ha
        have : a < n := List.mem_range.mp ha
        simp
        omega
      rw [hall]
      simp

/-- map commutes with eraseIdx. -/
theorem map_eraseIdx {α β : Type} (f : α → β) :
    ∀ (l : List α) (i : Nat), (l.eraseIdx i).map f = (l.map f).eraseIdx i := by
  intro l
  induction l with
  | nil => intro i; rfl
  | cons a tl ih =>
    intro i
    cases i with
    | zero => rfl
    | succ i' =>
      rw [List.eraseIdx_cons_succ, List.map_cons, List.map_cons,
        List.eraseIdx_cons_succ, ih]

/-- Looking up all indices except s, in order, yields the list with index
s erased. -/
theorem filter_ne_map_getD_range {α : Type} (l : List α) (d : α)
    (s : Nat) (hs : s < l.length) :
    ((List.range l.length).filter (fun i => i ≠ s)).map
        (fun i => l.getD i d) =
      l.eraseIdx s := by
  rw [filter_ne_range_eq_eraseIdx l.length s hs,
    map_eraseIdx (fun i => l.getD i d) (List.range l.length) s,
    map_getD_range l d]

/-- map commutes with insertIdx. -/
theorem insertIdx_map {α β : Type} (f : α → β) (a : α) :
    ∀ (i : Nat) (l : List α),
      (l.insertIdx i a).map f = (l.map f).insertIdx i (f a) := by
  intro i
  induction i with
  | zero => intro l; simp [List.insertIdx_zero]
  | succ i ih =>
    intro l
    cases l with
    | nil => simp [List.insertIdx_succ_nil]
    | cons b tl => simp [List.insertIdx_succ_cons, ih]

/-- Reinserting the erased element at its own position is the
identity. -/
theorem insertIdx_getD_eraseIdx {α : Type} (l : List α) (d : α) :
    ∀ s : Nat, s < l.length →
      (l.eraseIdx s).insertIdx s (l.getD s d) = l := by
  induction l with
  | nil => intro s hs; simp at hs
  | cons a tl ih =>
    intro s hs
    cases s with
    | zero => simp [List.insertIdx_zero]
    | succ s' =>
      rw [List.eraseIdx_cons_succ, List.getD_cons_succ,
        List.insertIdx_succ_cons, ih s' (by simpa using hs)]

namespace Functorch

/-- Shape of a successful _movedim: the source dimension's size is
re-inserted at the destination position, all other sizes keeping their
relative order. -/
theorem movedim_sizes (t : RTensor) (src : Nat) (dst : Int)
    (hsrc : src < t.dim) (h0 : 0 ≤ dst) (hlt : dst < (t.dim : Int)) :
    ∃ r, _movedim t (src : Int) dst = .ok r ∧
      r.sizes = (t.sizes.eraseIdx src).insertIdx dst.toNat
        (t.sizes.getD src 0) := by
  have hn : t.dim ≠ 0 := by omega
  have hw1 : maybe_wrap_dim (src : Int) t.dim = .ok src := by
    rw [maybe_wrap_dim]
    simp [hn]
    intro h
    omega
  have hw2 : maybe_wrap_dim dst t.dim = .ok dst.toNat := by
    rw [maybe_wrap_dim]
    simp [hn, h0, hlt]
  rw [_movedim, hw1, hw2]
  by_cases heq : src = dst.toNat
  · simp only [heq, if_true]
    refine ⟨t, rfl, ?_⟩
    rw [← heq]
    exact (insertIdx_getD_eraseIdx t.sizes 0 src hsrc).symm
  · simp only [heq, if_false]
    refine ⟨_, rfl, ?_⟩
    show ((((List.range t.dim).filter (fun dim => dim ≠ src)).insertIdx
        dst.toNat src).map (fun i => t.sizes.getD i 0)) = _
    rw [insertIdx_map (fun i => t.sizes.getD i 0) src dst.toNat]
    have : t.dim = t.sizes.length := rfl
    rw [this, filter_ne_map_getD_range t.sizes 0 src (by
      rw [← this]; exact hsrc)]

/-- C9 counterexample: a batched tensor whose batched level (5) is
strictly above the requested level (3) makes has_level true, so the
claimed removal branch is taken, but remove_existing_batch_dim's
internal assertion that the levels are equal fails — no batch dimension
is removed. -/
theorem remove_batch_dim_level_gap_counterexample :
    _remove_batch_dim (.batched (.base 0 0 [3, 4] 4) 0 5) 3 2 0 =
      .error "TORCH_INTERNAL_ASSERT failed: batched level equals level" := by
  rfl

/-- C9 (amended): when self has no batch dim at the level, the result is
self expanded with a new dimension of size batch_size inserted at
out_dim; when self is batched exactly at the level, the batch dimension
is removed and the newly exposed dimension moved to out_dim, preserving
the order of the remaining dimensions; when self's batched level is
strictly above the level, the internal level-equality assertion
fails. -/
theorem remove_batch_dim_cases (self value : RTensor) (bdim : Nat)
    (blevel level : Int) (batch_size : Nat) (out_dim : Int) :
    (has_level self level = false → 0 ≤ out_dim →
      out_dim ≤ (self.sizes.length : Int) →
      _remove_batch_dim self level batch_size out_dim =
        .ok (self.expand (self.sizes.insertIdx out_dim.toNat batch_size)) ∧
      (self.expand (self.sizes.insertIdx out_dim.toNat batch_size)).sizes =
        self.sizes.insertIdx out_dim.toNat batch_size) ∧
    (self = .batched value bdim blevel → level ≤ blevel → blevel ≠ level →
      ∃ msg, _remove_batch_dim self level batch_size out_dim =
        .error msg) ∧
    (self = .batched value bdim blevel → blevel = level →
      bdim < value.dim → 0 ≤ out_dim → out_dim < (value.dim : Int) →
      ∃ r, _remove_batch_dim self level batch_size out_dim = .ok r ∧
        r.sizes = (value.sizes.eraseIdx bdim).insertIdx out_dim.toNat
          (value.sizes.getD bdim 0)) := by
  refine ⟨?_, ?_, ?_⟩
  · intro h h0 hle
    rw [_remove_batch_dim]
    rw [if_pos (by simp [h]), if_pos ⟨h0, hle⟩]
    exact ⟨rfl, rfl⟩
  · rintro rfl hge hne
    have hhl : has_level (RTensor.batched value bdim blevel) level = true := by
      simp only [has_level, maybeGetBatchedImpl, ge_iff_le, decide_eq_true_eq]
      exact hge
    rw [_remove_batch_dim, if_neg (by simp [hhl])]
    simp only [maybeGetBatchedImpl]
    rw [remove_existing_batch_dim, if_neg hne]
    exact ⟨_, rfl⟩
  · rintro rfl hbl hbd h0 hlt
    have hhl : has_level (RTensor.batched value bdim blevel) level = true := by
      simp only [has_level, maybeGetBatchedImpl, ge_iff_le, decide_eq_true_eq]
      omega
    rw [_remove_batch_dim, if_neg (by simp [hhl])]
    simp only [maybeGetBatchedImpl]
    rw [remove_existing_batch_dim, if_pos hbl]
    exact movedim_sizes value bdim out_dim hbd h0 hlt

end Functorch

namespace Functorch

/-- The store after running the propagation op is the store after the
underlying _propagate_functional_input_mutation call. -/
theorem run_propagate_store (u w : RTensor) (σ : Store) :
    (TensorOp.run (.propagateFunctionalInputMutationOp u w) σ).2 =
      (_propagate_functional_input_mutation u w σ).2 := by
  cases hP : _propagate_functional_input_mutation u w σ with
  | mk r σ' => simp only [TensorOp.run, hP]

/-- Store effect of _propagate_functional_input_mutation: unchanged
except in the one successful copy_ case, which writes only the unwrapped
argument's storage. -/
theorem propagate_store_characterization (u w : RTensor) (σ : Store) :
    ((∃ inner fl, w = .functional inner fl ∧
        isFunctionalTensorImpl u = false ∧ u ≠ inner ∧
        u.nbytes = inner.nbytes ∧ u.sizes = inner.sizes ∧
        (_propagate_functional_input_mutation u w σ).2 =
          Store.write σ u.storageId (σ inner.storageId)) ∨
      (_propagate_functional_input_mutation u w σ).2 = σ) ∧
    (∀ k, k ≠ u.storageId →
      (_propagate_functional_input_mutation u w σ).2 k = σ k) := by
  cases w with
  | functional inner fl =>
    by_cases hu : isFunctionalTensorImpl u = true
    · constructor
      · right
        rw [_propagate_functional_input_mutation,
          if_neg (by simp [isFunctionalTensorImpl]), if_pos (by simp [hu])]
      · intro k hk
        rw [_propagate_functional_input_mutation,
          if_neg (by simp [isFunctionalTensorImpl]), if_pos (by simp [hu])]
    · rw [_propagate_functional_input_mutation,
        if_neg (by simp [isFunctionalTensorImpl]), if_neg (by simp [hu])]
      by_cases hui : u = inner
      · rw [if_pos hui]
        exact ⟨Or.inr rfl, fun k hk => rfl⟩
      · rw [if_neg hui]
        by_cases hnb : u.nbytes = inner.nbytes
        · rw [if_neg (by simp [hnb])]
          by_cases hsz : u.sizes = inner.sizes
          · rw [if_neg (by simp [hsz])]
            refine ⟨Or.inl ⟨inner, fl, rfl, by simpa using hu, hui, hnb,
              hsz, rfl⟩, ?_⟩
            intro k hk
            simp [Store.write, hk]
          · rw [if_pos hsz]
            exact ⟨Or.inr rfl, fun k hk => rfl⟩
        · rw [if_pos hnb]
          exact ⟨Or.inr rfl, fun k hk => rfl⟩
  | base i sid sz es => exact ⟨Or.inr rfl, fun k hk => rfl⟩
  | view t sz => exact ⟨Or.inr rfl, fun k hk => rfl⟩
  | batched v b bl => exact ⟨Or.inr rfl, fun k hk => rfl⟩
  | gradWrapper v l a => exact ⟨Or.inr rfl, fun k hk => rfl⟩

/-- C3 counterexample: _propagate_functional_input_mutation, applied to
a non-functional tensor and a functional wrapper whose inner value is a
distinct tensor of the same sizes, succeeds and overwrites the unwrapped
argument's storage contents (here storage 0 changes from zeros to the
inner value's sevens) — an exported operation writing tensor data, not
just metadata. -/
theorem propagate_mutates_input_storage_counterexample :
    (TensorOp.run
        (.propagateFunctionalInputMutationOp (RTensor.base 0 0 [2] 4)
          (RTensor.functional (RTensor.base 1 1 [2] 4) 1))
        (fun sid => if sid = 1 then [7, 7] else [0, 0])).1 =
      .ok .unit ∧
    (TensorOp.run
        (.propagateFunctionalInputMutationOp (RTensor.base 0 0 [2] 4)
          (RTensor.functional (RTensor.base 1 1 [2] 4) 1))
        (fun sid => if sid = 1 then [7, 7] else [0, 0])).2
        (RTensor.base 0 0 [2] 4).storageId = [7, 7] ∧
    (fun sid => if sid = 1 then ([7, 7] : List Int) else [0, 0])
        (RTensor.base 0 0 [2] 4).storageId = [0, 0] := by
  exact ⟨rfl, rfl, rfl⟩

/-- C3 (amended): every exported tensor operation except
_propagate_functional_input_mutation leaves every storage unchanged; the
propagation op either leaves the store unchanged or — exactly when the
wrapped argument is a functional tensor, the unwrapped one is not, and
the wrapped inner value is a distinct tensor agreeing in nbytes and
sizes — overwrites the unwrapped argument's storage with the inner
value's contents, touching no other storage. -/
theorem ops_touch_only_metadata (op : TensorOp) (σ : Store) :
    (op.isPropagate = false → (TensorOp.run op σ).2 = σ) ∧
    (∀ u w, op = .propagateFunctionalInputMutationOp u w →
      ((∃ inner fl, w = .functional inner fl ∧
          isFunctionalTensorImpl u = false ∧ u ≠ inner ∧
          u.nbytes = inner.nbytes ∧ u.sizes = inner.sizes ∧
          (TensorOp.run op σ).2 =
            Store.write σ u.storageId (σ inner.storageId)) ∨
        (TensorOp.run op σ).2 = σ) ∧
      (∀ k, k ≠ u.storageId → (TensorOp.run op σ).2 k = σ k)) := by
  cases op
  case propagateFunctionalInputMutationOp u' w' =>
    constructor
    · intro hp
      simp [TensorOp.isPropagate] at hp
    · intro u w heq
      cases heq
      simp only [run_propagate_store]
      exact propagate_store_characterization u' w' σ
  all_goals exact ⟨fun _ => rfl, fun u w heq => nomatch heq⟩

/-- Witness for the amended C3 at a concrete non-propagating
operation. -/
theorem ops_touch_only_metadata_witness :
    (TensorOp.run (.wrapForGradOp (RTensor.base 0 0 [2] 4) 1)
        (fun _ => ([] : List Int))).2 = (fun _ => ([] : List Int)) :=
  (ops_touch_only_metadata (.wrapForGradOp (RTensor.base 0 0 [2] 4) 1)
    (fun _ => ([] : List Int))).1 rfl

/-- Witness for the amended C9 at concrete tensors: an unbatched tensor
gains an expanded dimension, and a batched tensor at the exact level has
its batch dimension removed and moved to the requested position. -/
theorem remove_batch_dim_cases_witness :
    (_remove_batch_dim (RTensor.base 0 0 [3] 4) 2 5 1 =
        .ok ((RTensor.base 0 0 [3] 4).expand
          ((RTensor.base 0 0 [3] 4).sizes.insertIdx (1 : Int).toNat 5)) ∧
      ((RTensor.base 0 0 [3] 4).expand
          ((RTensor.base 0 0 [3] 4).sizes.insertIdx (1 : Int).toNat 5)).sizes =
        (RTensor.base 0 0 [3] 4).sizes.insertIdx (1 : Int).toNat 5) ∧
    (∃ r, _remove_batch_dim (RTensor.batched (RTensor.base 0 0 [3, 4] 4) 0 7)
        7 2 1 = .ok r ∧
      r.sizes = ((RTensor.base 0 0 [3, 4] 4).sizes.eraseIdx 0).insertIdx
        (1 : Int).toNat ((RTensor.base 0 0 [3, 4] 4).sizes.getD 0 0)) :=
  ⟨(remove_batch_dim_cases (RTensor.base 0 0 [3] 4) (RTensor.base 0 0 [3] 4)
      0 0 2 5 1).1 (by decide) (by decide) (by decide),
   (remove_batch_dim_cases (RTensor.batched (RTensor.base 0 0 [3, 4] 4) 0 7)
      (RTensor.base 0 0 [3, 4] 4) 0 7 7 2 1).2.2 rfl rfl (by decide)
      (by decide) (by decide)⟩

end Functorch
